import Mathlib

/-!
Shallow embedding, in Lean 4, of the evaluation harness of the
`data-science-eval-runner` repository, together with proofs settling the
frozen claims about its specification.

Sources embedded here:
- `src/src/ds_evaluator.py` — scoring pipeline and evaluation orchestrator
  (`ScoringRubric`, `_compare_results_to_ground_truth`, `_score_correctness`,
  `_score_methodology`, `_score_code_quality`, `_score_completeness`,
  `_score_agent_results`, `evaluate_agent`, `get_evaluation_summary`);
- `src/src/ds_agent.py` — the tool-calling conversation loop
  (`_conversation_loop`, `_execute_tool_calls`);
- `src/taiga/spec.py` — the `Grade` dataclass and its `score` property.

Modelling conventions:
- Python floats are modelled by `ℚ`.  Every numeric literal occurring in the
  embedded code (`0.05`, `0.1`, `0.01`, `0.2`, `0.3`, `0.15`, `0.4`, `0.7`,
  `0.9`, `0.5`) is a short decimal, and every comparison the theorems below
  depend on is either exact or far from the rounding error of binary64, with
  one boundary case checked explicitly: `abs(110.0-100.0)/100.0 <= 0.05*2`
  evaluates to `0.1 <= 0.1`, true both in binary64 (both sides are the same
  double, since `float(0.05)*2 == float(0.1)` exactly) and in `ℚ`.
- Fallible Python code is modelled with `Except PyErr`; a raised exception is
  `Except.error`.
- Python dicts are modelled as association lists `List (String × v)` looked up
  with `List.lookup`; dict-key views compare as sets, which the embedding
  reflects where the source compares them.
- I/O (reading `analysis_results.json`, listing the working directory, the
  Anthropic API call, tool side effects) is modelled by passing the observed
  outcome of the I/O operation as an explicit argument; the control flow
  around those outcomes is translated from the source.
-/

namespace DS

/-- Python exception classes that the embedded code can raise or observe.
`other` covers exceptions whose class is irrelevant to the control flow. -/
inductive PyErr where
  | typeError
  | nameError
  | zeroDivisionError
  | valueError
  | assertionError
  | keyError
  | other (msg : String)
deriving DecidableEq, Repr

instance {ε α : Type} [DecidableEq ε] [DecidableEq α] :
    DecidableEq (Except ε α) := fun x y =>
  match x, y with
  | .ok a, .ok b =>
    if h : a = b then .isTrue (by rw [h]) else .isFalse (by simp [h])
  | .error a, .error b =>
    if h : a = b then .isTrue (by rw [h]) else .isFalse (by simp [h])
  | .ok _, .error _ => .isFalse (by simp)
  | .error _, .ok _ => .isFalse (by simp)

/-- The string `str(e)` that Python would render for an exception; used where
the source stores an exception into a result field. -/
def pyErrMsg : PyErr → String
  | .typeError => "TypeError"
  | .nameError => "NameError"
  | .zeroDivisionError => "division by zero"
  | .valueError => "ValueError"
  | .assertionError => "AssertionError"
  | .keyError => "KeyError"
  | .other msg => msg

/-- Python `needle in haystack` on strings (substring containment). -/
def strContains (haystack needle : String) : Bool :=
  decide (needle.data <:+: haystack.data)

/-- Python `str.upper()` (the embedded code only feeds it ASCII). -/
def pyUpper (s : String) : String := ⟨s.data.map Char.toUpper⟩

/-- Python `str.lower()` (the embedded code only feeds it ASCII). -/
def pyLower (s : String) : String := ⟨s.data.map Char.toLower⟩

/-! ## ScoringRubric — `ds_evaluator.py` lines 54-67 -/

/-- The `ScoringRubric` dataclass fields with their default values
(`0.4, 0.3, 0.15, 0.15`). -/
structure ScoringRubric where
  correctness_weight : ℚ := 2/5
  methodology_weight : ℚ := 3/10
  code_quality_weight : ℚ := 3/20
  completeness_weight : ℚ := 3/20
deriving DecidableEq, Repr

/-- Validation `ScoringRubric.__post_init__`: raises `ValueError` when the four weights
sum to more than `0.01` away from `1.0`; otherwise the constructed rubric
stands. -/
def ScoringRubric.post_init (r : ScoringRubric) : Except PyErr ScoringRubric :=
  let total := r.correctness_weight + r.methodology_weight
      + r.code_quality_weight + r.completeness_weight
  if |total - 1| > 1/100 then .error .valueError else .ok r

/-- Dataclass construction `ScoringRubric(c, m, q, comp)`: field assignment
followed by `__post_init__`. -/
def mkScoringRubric (c m q comp : ℚ) : Except PyErr ScoringRubric :=
  ScoringRubric.post_init ⟨c, m, q, comp⟩

/-- The default rubric `ScoringRubric()` installed by `setup_problem`. -/
def default_rubric : ScoringRubric := {}

/-! ## Ground-truth comparison — `ds_evaluator.py` lines 484-532 -/

/-- Source line `tolerance = 0.05  # 5% tolerance`. -/
def tolerance : ℚ := 1/20

/-- The `numerical_keys` list of `(agent_key, gt_key)` pairs. -/
def numerical_keys : List (String × String) :=
  [("top_customer_total_spent", "top_customer_total_spent"),
   ("total_revenue", "total_revenue"),
   ("total_transactions", "total_transactions"),
   ("unique_customers", "unique_customers"),
   ("avg_transaction_value", "avg_transaction_value"),
   ("highest_month_sales", "highest_month_sales"),
   ("lowest_month_sales", "lowest_month_sales"),
   ("months_with_data", "months_with_data")]

/-- The `string_keys` list of `(agent_key, gt_key)` pairs. -/
def string_keys : List (String × String) :=
  [("top_customer_name", "top_customer_name")]

/-- Per-field credit for one numeric key, from the body of the loop over
`numerical_keys`: Python divides `abs(agent_val - gt_val)` by `gt_val`, which
raises `ZeroDivisionError` when `gt_val == 0.0`; otherwise full credit within
`tolerance`, half credit within `tolerance * 2`, nothing beyond. -/
def numeric_credit (agent_val gt_val : ℚ) : Except PyErr ℚ :=
  if gt_val = 0 then .error .zeroDivisionError
  else if |agent_val - gt_val| / gt_val ≤ tolerance then .ok 1
  else if |agent_val - gt_val| / gt_val ≤ tolerance * 2 then .ok (1/2)
  else .ok 0

/-- Per-field credit for one string key, from the body of the loop over
`string_keys`: full credit on stripped case-insensitive equality, half credit
on substring containment in either direction, nothing otherwise. -/
def string_credit (agent_val gt_val : String) : ℚ :=
  let a := pyLower agent_val.trim
  let g := pyLower gt_val.trim
  if a = g then 1
  else if strContains g a || strContains a g then 1/2
  else 0

/-- The loop over `numerical_keys`, threading the mutable `score` and
`total_checks` accumulators; a field counts only when its key is present in
both dicts. -/
def numeric_fold (agent_results ground_truth : List (String × ℚ)) :
    List (String × String) → ℚ → ℕ → Except PyErr (ℚ × ℕ)
  | [], score, total_checks => .ok (score, total_checks)
  | (agent_key, gt_key) :: rest, score, total_checks =>
    match agent_results.lookup agent_key, ground_truth.lookup gt_key with
    | some agent_val, some gt_val =>
      match numeric_credit agent_val gt_val with
      | .error e => .error e
      | .ok credit => numeric_fold agent_results ground_truth rest
          (score + credit) (total_checks + 1)
    | _, _ => numeric_fold agent_results ground_truth rest score total_checks

/-- The loop over `string_keys`; string comparison cannot raise here. -/
def string_fold (agent_results ground_truth : List (String × String)) :
    List (String × String) → ℚ → ℕ → ℚ × ℕ
  | [], score, total_checks => (score, total_checks)
  | (agent_key, gt_key) :: rest, score, total_checks =>
    match agent_results.lookup agent_key, ground_truth.lookup gt_key with
    | some agent_val, some gt_val =>
      string_fold agent_results ground_truth rest
        (score + string_credit agent_val gt_val) (total_checks + 1)
    | _, _ => string_fold agent_results ground_truth rest score total_checks

/-- Method `_compare_results_to_ground_truth(agent_results, ground_truth)`: the two
key loops followed by `score / total_checks if total_checks > 0 else 0.0`.
The agent-results and ground-truth dicts are split into their numeric-valued
and string-valued entries. -/
def compare_results_to_ground_truth (agent_num gt_num : List (String × ℚ))
    (agent_str gt_str : List (String × String)) : Except PyErr ℚ :=
  match numeric_fold agent_num gt_num numerical_keys 0 0 with
  | .error e => .error e
  | .ok (s1, t1) =>
    let (score, total_checks) := string_fold agent_str gt_str string_keys s1 t1
    if 0 < total_checks then .ok (score / (total_checks : ℚ)) else .ok 0

end DS


namespace DS
/-! ## Correctness scoring — `ds_evaluator.py` lines 315-365 -/

/-- A parsed `analysis_results.json` dict, split by value type: numeric
entries, string entries, and any remaining keys (for example
`key_insights`), which only matter for key-presence checks. -/
structure AgentResults where
  nums : List (String × ℚ)
  strs : List (String × String)
  other_keys : List String
deriving DecidableEq, Repr

/-- Python `key in agent_results`. -/
def AgentResults.hasKey (ar : AgentResults) (key : String) : Bool :=
  (ar.nums.lookup key).isSome || (ar.strs.lookup key).isSome
    || ar.other_keys.contains key

/-- The `ground_truth` mapping of a problem definition, split the same way. -/
structure GroundTruth where
  nums : List (String × ℚ)
  strs : List (String × String)
deriving DecidableEq, Repr

/-- What `_score_correctness` observes about `workdir/analysis_results.json`:
the file is absent, or it exists and `json.load` either raises or yields a
parsed dict. -/
inductive SubmissionFile where
  | absent
  | found (parse : Except PyErr AgentResults)
deriving DecidableEq, Repr

/-- The `required_keys` list checked for presence. -/
def required_keys : List String :=
  ["top_customer_total_spent", "top_customer_name", "total_revenue",
   "total_transactions", "unique_customers", "avg_transaction_value"]

/-- Method `_get_expected_files`: the fixed expected-output list. -/
def expected_files : List String := ["analysis.py", "results.csv", "report.md"]

/-- Python `name.endswith((".py", ".sql", ".md", ".txt"))`. -/
def isAnalysisFile (name : String) : Bool :=
  name.endsWith ".py" || name.endsWith ".sql" || name.endsWith ".md"
    || name.endsWith ".txt"

/-- The accuracy-and-presence block of `_score_correctness` run on a parsed
submission: `0.7 *` the ground-truth comparison (or flat `0.5` with no
ground truth) plus `0.3 *` the required-key presence fraction; re-raises
whatever the comparison raises. -/
def correctness_body (ground_truth : Option GroundTruth)
    (ar : AgentResults) : Except PyErr ℚ := do
  let s1 : ℚ ←
    match ground_truth with
    | some gt => do
      let accuracy_score ←
        compare_results_to_ground_truth ar.nums gt.nums ar.strs gt.strs
      pure (accuracy_score * (7/10))
    | none => pure (1/2)
  let present_keys := (required_keys.filter (fun k => ar.hasKey k)).length
  pure (s1 + ((present_keys : ℚ) / (required_keys.length : ℚ)) * (3/10))

/-- Method `_score_correctness(problem_id, workdir, created_files)`.  When the
submission file exists, the whole read-parse-compare-check block runs under
one `try`; any exception in it (unparsable JSON, or `ZeroDivisionError` from
the ground-truth comparison) falls to the handler, which adds `0.2` to the
still-zero score ("partial credit for file existence").  When the file is
absent, the legacy path credits expected filenames and analysis-file
extensions.  The result is `min(1.0, score)`; the function itself never
raises. -/
def score_correctness (ground_truth : Option GroundTruth)
    (file : SubmissionFile) (created_files : List String) : ℚ :=
  match file with
  | .found parse =>
    match parse.bind (fun ar => correctness_body ground_truth ar) with
    | .ok s => min 1 s
    | .error _ => min 1 (0 + 1/5)
  | .absent =>
    let s1 := expected_files.foldl
      (fun acc f => if created_files.contains f then acc + 1/10 else acc) 0
    let s2 := if created_files.any isAnalysisFile then s1 + 1/5 else s1
    min 1 s2

/-! ## Heuristic subscores — `ds_evaluator.py` lines 367-450 -/

/-- The `agent_output` argument as Python receives it: a list, `None`, or any
other value rendered with `str`. -/
inductive AgentOutput where
  | list (items : List String)
  | none
  | str (s : String)
deriving DecidableEq, Repr

/-- The `agent_output_str` conversion at the top of `_score_methodology`. -/
def agent_output_str : AgentOutput → String
  | .list items => String.intercalate " " items
  | .none => ""
  | .str s => s

/-- Method `_score_methodology`: keyword heuristics over the output transcript plus
a check for generated Python files, capped at 1. -/
def score_methodology (agent_output : AgentOutput)
    (created_files : List String) : ℚ :=
  let out := agent_output_str agent_output
  let s : ℚ := 0
  let s := if strContains (pyUpper out) "SELECT" && strContains (pyUpper out) "FROM"
    then s + 3/10 else s
  let s := if ["DESCRIBE", "COUNT", "GROUP BY", "DISTINCT"].any
      (fun kw => strContains (pyUpper out) kw)
    then s + 3/10 else s
  let s := if ["analysis", "insight", "pattern", "trend"].any
      (fun kw => strContains (pyLower out) kw)
    then s + 1/5 else s
  let s := if created_files.any (fun f => f.endsWith ".py") then s + 1/5 else s
  min 1 s

/-- One file of the working directory as `_score_code_quality` sees it: its
name and its content, `none` when `open`/`read` raises (the per-file `try`
then just continues). -/
structure WorkFile where
  name : String
  content : Option String
deriving DecidableEq, Repr

/-- The per-file additions in `_score_code_quality`. -/
def code_quality_points (content : String) : ℚ :=
  let s : ℚ := 0
  let s := if strContains content "#" then s + 1/5 else s
  let s := if strContains content "import" then s + 1/5 else s
  let s := if strContains content "def " || strContains content "class " then s + 3/10 else s
  let s := if strContains content "try:" || strContains content "except" then s + 3/10 else s
  s

/-- Method `_score_code_quality`: sums the per-file points over the `.py` files
listed in `created_files`, skipping unreadable ones, capped at 1. -/
def score_code_quality (workdir : List WorkFile)
    (created_files : List String) : ℚ :=
  let python_files := created_files.filter (fun f => f.endsWith ".py")
  let s := python_files.foldl
    (fun acc f =>
      match (workdir.filter (fun w => w.name == f)).head? with
      | some w =>
        match w.content with
        | some content => acc + code_quality_points content
        | none => acc
      | none => acc)
    0
  min 1 s

/-- Method `_score_completeness`: the `elif` chain classifies each created file as
code, results, or documentation; the score is `0.3` per distinct type plus
`0.1` when at least three files exist, capped at 1. -/
def score_completeness (created_files : List String) : ℚ :=
  let has_code := created_files.any (fun f => f.endsWith ".py")
  let has_results := created_files.any (fun f =>
    !f.endsWith ".py" && (f.endsWith ".csv" || f.endsWith ".json" || f.endsWith ".txt"))
  let has_docs := created_files.any (fun f =>
    !f.endsWith ".py" && !(f.endsWith ".csv" || f.endsWith ".json" || f.endsWith ".txt")
      && f.endsWith ".md")
  let n : ℚ := (if has_code then 1 else 0) + (if has_results then 1 else 0)
    + (if has_docs then 1 else 0)
  let s := n * (3/10)
  let s := if 3 ≤ created_files.length then s + 1/10 else s
  min 1 s

/-! ## The scoring pipeline — `ds_evaluator.py` lines 274-313 -/

/-- The four subscore entries of the `subscores` dict. -/
structure Subscores where
  correctness : ℚ
  methodology : ℚ
  code_quality : ℚ
  completeness : ℚ
deriving DecidableEq, Repr

/-- The dict `_score_agent_results` returns on its success path:
`total_score`, the `subscores` dict, and the metadata.  `metadata_error` is
the value of the metadata `error` key (`none` on the success path, whose
metadata holds only `created_files` and `rubric_weights`). -/
structure ScoreResult where
  total_score : ℚ
  subscores : Subscores
  metadata_error : Option String
deriving DecidableEq, Repr

/-- Method `_score_agent_results(problem_id, workdir, agent_output)`.  The four
awaited subscore computations are passed as observed outcomes.  The `try`
block assigns them into the zero-initialised `subscores` dict in order and
combines them with the rubric weights.

The `except` block is
`print(f"Scoring error: {e}", exc_info=True)` followed by a `return` of the
degraded result — but `exc_info` is not a keyword accepted by the builtin
`print`, so the handler itself raises
`TypeError: 'exc_info' is an invalid keyword argument for print()` and the
`return {"total_score": 0.0, "subscores": subscores, "metadata": {"error":
str(e)}}` on line 313 is unreachable.  The embedding therefore propagates
`PyErr.typeError` from every handler entry. -/
def score_agent_results (rubric : ScoringRubric)
    (correctness methodology code_quality completeness : Except PyErr ℚ) :
    Except PyErr ScoreResult :=
  match correctness with
  | .error _ => .error .typeError
  | .ok c =>
    match methodology with
    | .error _ => .error .typeError
    | .ok m =>
      match code_quality with
      | .error _ => .error .typeError
      | .ok q =>
        match completeness with
        | .error _ => .error .typeError
        | .ok comp =>
          let total_score := c * rubric.correctness_weight
            + m * rubric.methodology_weight
            + q * rubric.code_quality_weight
            + comp * rubric.completeness_weight
          .ok ⟨total_score, ⟨c, m, q, comp⟩, Option.none⟩

/-- Pipeline `_score_agent_results` with its four subscore calls instantiated by the
concrete scorers above, which are total functions: this is the scoring
pipeline as invoked on an actual working directory. -/
def run_scoring (rubric : ScoringRubric) (ground_truth : Option GroundTruth)
    (file : SubmissionFile) (created_files : List String)
    (agent_output : AgentOutput) (workdir : List WorkFile) :
    Except PyErr ScoreResult :=
  score_agent_results rubric
    (.ok (score_correctness ground_truth file created_files))
    (.ok (score_methodology agent_output created_files))
    (.ok (score_code_quality workdir created_files))
    (.ok (score_completeness created_files))

end DS

namespace DS

/-! ## Grade — `taiga/spec.py` lines 6-24 -/

/-- The frozen `Grade` dataclass: `subscores` and `weights` dicts (the
`metadata` field plays no part in `score`). -/
structure Grade where
  subscores : List (String × ℚ)
  weights : List (String × ℚ)
deriving DecidableEq, Repr

/-- Python `self.subscores.keys() == self.weights.keys()`: dict-key views
compare as sets. -/
def keys_equal (s w : List (String × ℚ)) : Bool :=
  (s.map Prod.fst).all (fun k => decide (k ∈ w.map Prod.fst))
    && (w.map Prod.fst).all (fun k => decide (k ∈ s.map Prod.fst))

/-- Predicate `np.isclose(x, 1)` with numpy defaults `rtol=1e-05, atol=1e-08`:
`|x - 1| <= atol + rtol * |1|`. -/
def np_isclose_one (x : ℚ) : Bool :=
  decide (|x - 1| ≤ 1001/100000000)

/-- Python `sum([self.subscores[key] * self.weights[key] for key in
self.subscores.keys()])`: a left fold from `0` over the subscore entries,
looking each key up in `weights` (`KeyError` on a missing key). -/
def grade_sum : List (String × ℚ) → List (String × ℚ) → ℚ → Except PyErr ℚ
  | [], _, acc => .ok acc
  | (key, sub) :: rest, weights, acc =>
    match weights.lookup key with
    | some w => grade_sum rest weights (acc + sub * w)
    | none => .error .keyError

/-- The `Grade.score` property: the four leading `assert`s in source order
(`min`/`max` of an empty values view raise `ValueError` first), the weighted
sum, and the final range `assert` on the computed score. -/
def Grade.score (g : Grade) : Except PyErr ℚ :=
  if keys_equal g.subscores g.weights then
    if np_isclose_one ((g.weights.map Prod.snd).sum) then
      match g.subscores with
      | [] => .error .valueError
      | _ :: _ =>
        if (g.subscores.map Prod.snd).all (fun v => decide (0 ≤ v)) then
          if (g.subscores.map Prod.snd).all (fun v => decide (v ≤ 1)) then
            match grade_sum g.subscores g.weights 0 with
            | .error e => .error e
            | .ok score =>
              if 0 ≤ score ∧ score ≤ 1 then .ok score
              else .error .assertionError
          else .error .assertionError
        else .error .assertionError
    else .error .assertionError
  else .error .assertionError

end DS

namespace DS

/-! ## The conversation loop — `ds_agent.py` lines 120-256

`model`, `system_prompt` and `max_tokens` are only forwarded to the Claude
API call, so the embedding folds them into the `call_claude` oracle, which
maps the iteration index and the message list so far to the observed outcome
of `self._call_claude(...)` (a response, or a raised exception).  Likewise
`exec_tool` maps the iteration index and one tool call to the observed
outcome of the dispatched tool coroutine. -/

/-- The `ToolResult` dataclass fields consumed by the loop. -/
structure ToolResult where
  output : Option String
  error : Option String
deriving DecidableEq, Repr

/-- One tool call as `_extract_tool_calls` returns it:
`{id, name, input}` with a string-keyed argument mapping. -/
structure ToolCall where
  id : String
  name : String
  input : List (String × String)
deriving DecidableEq, Repr

/-- A Claude response as the loop consumes it: its `content` (kept abstract
as one string) and the tool-use blocks `_extract_tool_calls` reads off it. -/
structure Response where
  content : String
  tool_calls : List ToolCall
deriving DecidableEq, Repr

/-- Method `_extract_tool_calls(response)`. -/
def extract_tool_calls (response : Response) : List ToolCall :=
  response.tool_calls

/-- One transcript entry.  `user` and `assistant` carry their content
string; `tool_results` is the combined tool-result turn, a list of
`(tool_use_id, content)` pairs. -/
inductive Message where
  | user (content : String)
  | assistant (content : String)
  | tool_results (items : List (String × String))
deriving DecidableEq, Repr

/-- Method `_execute_tool_calls(tool_calls)`: each call runs under its own
`try`/`except`; a raised exception becomes the string
`f"Tool execution error: {e}"` in the result list, a `ToolResult` with
`error` set becomes `f"Error: {result.error}"`, and a `ToolResult` without
output falls back to `"Tool executed successfully"`.  The function always
returns one string per tool call and never raises. -/
def execute_tool_calls (exec_tool : ToolCall → Except PyErr ToolResult)
    (tool_calls : List ToolCall) : List String :=
  tool_calls.map (fun tc =>
    match exec_tool tc with
    | .ok result =>
      match result.error with
      | some e => "Error: " ++ e
      | none =>
        match result.output with
        | some out => out
        | none => "Tool executed successfully"
    | .error e => "Tool execution error: " ++ pyErrMsg e)

/-- The mapping `_conversation_loop` returns.  The error return on line 179
has no `final_response` key and the success return on line 181 has no
`error` key; the embedding stores `none` for an absent key.  `final_response`
holds the last transcript entry, whose `content` field Python would read
(`""` when the transcript is empty, represented by `none`). -/
structure LoopResult where
  success : Bool
  messages : List Message
  iterations : ℕ
  final_response : Option Message
  error : Option String
deriving DecidableEq, Repr

/-- The success return of `_conversation_loop` (lines 181-186), leaving the
`for` loop after iteration index `iteration`. -/
def loop_done (iteration : ℕ) (messages : List Message) : LoopResult :=
  ⟨true, messages, iteration + 1, messages.getLast?, none⟩

/-- The body of `for iteration in range(max_iterations)` from
`_conversation_loop`, entered at iteration index `iteration` with `fuel`
further iterations available after this one (the loop as a whole runs at
most `max_iterations` times, so `fuel` starts at `max_iterations - 1`; the
`iteration == max_iterations - 1` break keeps the `fuel = 0` fallback
unreachable).  The iteration-level `try`/`except` catches an exception from
the model-request step and returns at once with the partial transcript;
tool execution cannot raise out of `execute_tool_calls`. -/
def loop_go (call_claude : ℕ → List Message → Except PyErr Response)
    (exec_tool : ℕ → ToolCall → Except PyErr ToolResult)
    (max_iterations : ℕ) :
    ℕ → ℕ → List Message → LoopResult
  | fuel, iteration, messages =>
    match call_claude iteration messages with
    | .error e => ⟨false, messages, iteration + 1, none, some (pyErrMsg e)⟩
    | .ok response =>
      let messages1 := messages ++ [Message.assistant response.content]
      let tool_calls := extract_tool_calls response
      if tool_calls.isEmpty then loop_done iteration messages1
      else
        let tool_results := execute_tool_calls (exec_tool iteration) tool_calls
        let tool_result_content :=
          (tool_calls.zip tool_results).map (fun p => (p.1.id, p.2))
        let messages2 := if tool_result_content.isEmpty then messages1
          else messages1 ++ [Message.tool_results tool_result_content]
        if iteration = max_iterations - 1 then loop_done iteration messages2
        else
          match fuel with
          | 0 => loop_done iteration messages2
          | fuel' + 1 => loop_go call_claude exec_tool max_iterations
              fuel' (iteration + 1) messages2

/-- Method `_conversation_loop(model, system_prompt, messages, max_iterations,
max_tokens)`.  With `max_iterations = 0` the `for` body never runs and the
final `return` reads the loop variable `iteration`, which was never bound:
Python raises `UnboundLocalError` (a subclass of `NameError`) instead of
returning a result. -/
def conversation_loop (call_claude : ℕ → List Message → Except PyErr Response)
    (exec_tool : ℕ → ToolCall → Except PyErr ToolResult)
    (max_iterations : ℕ) (messages : List Message) :
    Except PyErr LoopResult :=
  match max_iterations with
  | 0 => .error .nameError
  | n + 1 => .ok (loop_go call_claude exec_tool (n + 1) n 0 messages)

end DS

namespace DS

/-! ## The orchestrator — `ds_evaluator.py` lines 107-172 and 586-609 -/

/-- The `EvaluationResult` dataclass (fields relevant to the claims;
`execution_time` is wall-clock time, passed through as observed). -/
structure EvaluationResult where
  problem_id : String
  success : Bool
  score : ℚ
  subscores : Option Subscores
  execution_time : ℚ
  error_message : Option String
  agent_output : Option String
  created_files : Option (List String)
deriving DecidableEq, Repr

/-- The dict `_run_agent_locally` returns: it wraps its whole body in
`try`/`except` and always returns `{success, output, error}` without
raising. -/
structure RunOutcome where
  success : Bool
  output : Option String
  error : Option String
deriving DecidableEq, Repr

/-- Method `evaluate_agent(agent_module, problem_id)`.  The unconfigured-problem
check precedes the `try`; everything after it — temporary-directory setup,
database materialisation (`db_setup`), the agent run, scoring
(`score_result`, the observed outcome of `_score_agent_results`), file
listing — runs inside one `try` whose `except` converts any exception into
a failed `EvaluationResult`.  The function always returns a result and never
raises. -/
def evaluate_agent (problem_id : String) (configured : Bool)
    (db_setup : Except PyErr Unit) (run_result : RunOutcome)
    (score_result : Except PyErr ScoreResult)
    (created_files : List String) (execution_time : ℚ) : EvaluationResult :=
  if !configured then
    ⟨problem_id, false, 0, none, 0,
      some ("Problem " ++ problem_id ++ " not configured"), none, none⟩
  else
    let body : Except PyErr EvaluationResult := do
      let _ ← db_setup
      if run_result.success then do
        let sr ← score_result
        pure ⟨problem_id, true, sr.total_score, some sr.subscores,
          execution_time, none, run_result.output, some created_files⟩
      else
        pure ⟨problem_id, false, 0, none, execution_time,
          run_result.error, run_result.output, none⟩
    match body with
    | .ok r => r
    | .error e =>
      ⟨problem_id, false, 0, none, execution_time, some (pyErrMsg e),
        none, none⟩

/-- The summary dict `get_evaluation_summary` builds for a non-empty result
list (for an empty list the function returns the empty dict, modelled as
`none`). -/
structure EvaluationSummary where
  total_evaluations : ℕ
  successful_evaluations : ℕ
  success_rate : ℚ
  average_score : ℚ
  average_execution_time : ℚ
  excellent : ℕ
  good : ℕ
  satisfactory : ℕ
  poor : ℕ
deriving DecidableEq, Repr

/-- Method `get_evaluation_summary(results)`: success rate over all results, mean
score over successful results only (`0.0` when there are none), mean
execution time over all results, and the four score-distribution buckets
over successful results. -/
def get_evaluation_summary (results : List EvaluationResult) :
    Option EvaluationSummary :=
  if results.isEmpty then none
  else
    let successful_results := results.filter (fun r => r.success)
    some
      { total_evaluations := results.length
        successful_evaluations := successful_results.length
        success_rate := (successful_results.length : ℚ) / (results.length : ℚ)
        average_score :=
          if successful_results.isEmpty then 0
          else (successful_results.map (fun r => r.score)).sum
            / (successful_results.length : ℚ)
        average_execution_time :=
          (results.map (fun r => r.execution_time)).sum / (results.length : ℚ)
        excellent := (successful_results.filter
          (fun r => decide (9/10 ≤ r.score))).length
        good := (successful_results.filter
          (fun r => decide (7/10 ≤ r.score) && decide (r.score < 9/10))).length
        satisfactory := (successful_results.filter
          (fun r => decide (1/2 ≤ r.score) && decide (r.score < 7/10))).length
        poor := (successful_results.filter
          (fun r => decide (r.score < 1/2))).length }

end DS

namespace DS

/-! ## Claim theorems -/

/-- C5: constructing a `ScoringRubric` raises exactly when the four weights
sum to more than `0.01` away from `1.0`; within tolerance the construction
succeeds with the given weights, outside it fails fast with `ValueError`. -/
theorem C5_rubric_validates_weight_sum (c m q comp : ℚ) :
    (|c + m + q + comp - 1| ≤ 1/100
      ∧ mkScoringRubric c m q comp = .ok ⟨c, m, q, comp⟩)
    ∨ (1/100 < |c + m + q + comp - 1|
      ∧ mkScoringRubric c m q comp = .error .valueError) := by
  by_cases h : |c + m + q + comp - 1| ≤ 1/100
  · refine Or.inl ⟨h, ?_⟩
    show (if 1/100 < |c + m + q + comp - 1|
      then (Except.error PyErr.valueError : Except PyErr ScoringRubric)
      else .ok ⟨c, m, q, comp⟩) = .ok ⟨c, m, q, comp⟩
    rw [if_neg (not_lt.mpr h)]
  · refine Or.inr ⟨lt_of_not_ge h, ?_⟩
    show (if 1/100 < |c + m + q + comp - 1|
      then (Except.error PyErr.valueError : Except PyErr ScoringRubric)
      else .ok ⟨c, m, q, comp⟩) = .error .valueError
    rw [if_pos (lt_of_not_ge h)]

/-- C9: calling `_conversation_loop` with `max_iterations = 0` never builds
the result mapping: the final `return` reads the never-bound loop variable
and the call raises a `NameError` (`UnboundLocalError`). -/
theorem C9_zero_max_iterations_name_error
    (call_claude : ℕ → List Message → Except PyErr Response)
    (exec_tool : ℕ → ToolCall → Except PyErr ToolResult)
    (messages : List Message) :
    conversation_loop call_claude exec_tool 0 messages
      = .error .nameError := rfl

/-- C2 (documenting the code bug): whenever any of the four awaited subscore
computations raises, `_score_agent_results` does not return the intended
degraded all-zero result: its `except` handler calls the builtin `print`
with the invalid keyword `exc_info`, so a `TypeError` propagates to the
caller instead. -/
theorem C2_scoring_exception_escapes_handler (rubric : ScoringRubric)
    (e : PyErr) (c m q : ℚ) (x y z : Except PyErr ℚ) :
    score_agent_results rubric (.error e) x y z = .error .typeError
    ∧ score_agent_results rubric (.ok c) (.error e) y z = .error .typeError
    ∧ score_agent_results rubric (.ok c) (.ok m) (.error e) z = .error .typeError
    ∧ score_agent_results rubric (.ok c) (.ok m) (.ok q) (.error e)
      = .error .typeError :=
  ⟨rfl, rfl, rfl, rfl⟩

/-- C1 counterexample: an agent value `110.0` against ground truth `100.0`
is exactly 10% off, which the comparison credits with `0.5`, not `0`. -/
theorem C1_counterexample_ten_percent_half_credit :
    compare_results_to_ground_truth [("total_revenue", 110)]
        [("total_revenue", 100)] [] [] = .ok (1/2)
    ∧ compare_results_to_ground_truth [("total_revenue", 110)]
        [("total_revenue", 100)] [] [] ≠ .ok 0 := by
  have h : compare_results_to_ground_truth [("total_revenue", 110)]
      [("total_revenue", 100)] [] [] = .ok (1/2) := by
    simp only [compare_results_to_ground_truth, numeric_fold, string_fold,
      numerical_keys, string_keys, List.lookup, String.reduceBEq]
    norm_num [numeric_credit, tolerance, abs_of_nonneg]
  refine ⟨h, ?_⟩
  rw [h]
  intro hx
  have : (1/2 : ℚ) = 0 := by injection hx
  norm_num at this

/-- C1 amended: per numeric field the credit is full when
`|agent - truth| / truth ≤ 0.05`, half when the ratio is above `0.05` but at
most `0.10` (the boundary `0.10` inclusive — so 10% off earns half credit,
not zero), and zero beyond; stated for the per-field computation and for the
full comparison on a single shared numeric field. -/
theorem C1_per_field_credit_tiers (a t : ℚ) (ht : t ≠ 0) :
    numeric_credit a t
      = .ok (if |a - t| / t ≤ 1/20 then 1
          else if |a - t| / t ≤ 1/10 then (1/2 : ℚ) else 0)
    ∧ compare_results_to_ground_truth [("total_revenue", a)]
        [("total_revenue", t)] [] []
      = .ok (if |a - t| / t ≤ 1/20 then 1
          else if |a - t| / t ≤ 1/10 then (1/2 : ℚ) else 0) := by
  have h1 : numeric_credit a t
      = .ok (if |a - t| / t ≤ 1/20 then 1
          else if |a - t| / t ≤ 1/10 then (1/2 : ℚ) else 0) := by
    simp only [numeric_credit, tolerance, if_neg ht, apply_ite (f := Except.ok)]
    norm_num
  refine ⟨h1, ?_⟩
  simp only [compare_results_to_ground_truth, numeric_fold, string_fold,
    numerical_keys, string_keys, List.lookup, String.reduceBEq, h1]
  norm_num

/-- C1 witness: ground truth `100` is nonzero, and an agent value `104.9`
(4.9% off) falls in the full-credit tier of the amended statement. -/
theorem C1_per_field_credit_tiers_witness :
    (100 : ℚ) ≠ 0
    ∧ (numeric_credit (1049/10) 100
        = .ok (if |(1049/10 : ℚ) - 100| / 100 ≤ 1/20 then 1
            else if |(1049/10 : ℚ) - 100| / 100 ≤ 1/10 then (1/2 : ℚ) else 0)
      ∧ compare_results_to_ground_truth [("total_revenue", 1049/10)]
          [("total_revenue", 100)] [] []
        = .ok (if |(1049/10 : ℚ) - 100| / 100 ≤ 1/20 then 1
            else if |(1049/10 : ℚ) - 100| / 100 ≤ 1/10 then (1/2 : ℚ) else 0)) :=
  ⟨by norm_num, C1_per_field_credit_tiers (1049/10) 100 (by norm_num)⟩

end DS

namespace DS

/-- Helper: on an unparsable submission file the inner `try` of
`_score_correctness` fails at `json.load`, and the handler credits a fixed
`0.2` for file existence. -/
theorem score_correctness_unparsable (ground_truth : Option GroundTruth)
    (e : PyErr) (created_files : List String) :
    score_correctness ground_truth (.found (.error e)) created_files = 1/5 := by
  show min 1 (0 + 1/5) = 1/5
  norm_num

/-- C3 counterexample: with ground truth configured and an unparsable
`analysis_results.json` (and nothing else in the working directory), the
scoring pipeline returns normally with `total_score = 0.2 * 0.4 = 0.08 ≠ 0`
and no `error` entry in the metadata — not the all-zero errored result the
claim requires. -/
theorem C3_counterexample_unparsable_scores_nonzero :
    run_scoring default_rubric (some ⟨[("total_revenue", 100)], []⟩)
        (.found (.error .valueError)) [] .none []
      = .ok ⟨2/25, ⟨1/5, 0, 0, 0⟩, none⟩
    ∧ (2/25 : ℚ) ≠ 0 := by
  constructor
  · have hc := score_correctness_unparsable
      (some ⟨[("total_revenue", 100)], []⟩) .valueError []
    have hm : score_methodology .none [] = 0 := by
      simp +decide [score_methodology, agent_output_str]
    have hq : score_code_quality [] [] = 0 := by
      simp [score_code_quality]
    have hk : score_completeness [] = 0 := by
      simp [score_completeness]
    simp only [run_scoring, score_agent_results, hc, hm, hq, hk]
    norm_num [default_rubric]
  · norm_num

/-- C3 amended: an unparsable structured submission never aborts scoring:
the correctness scorer absorbs the parse failure and awards the fixed `0.2`
partial credit, the pipeline completes with that subscore combined under the
rubric weights, and the metadata carries no error entry (so no exception
reaches the orchestrator, but the total score is not forced to `0`). -/
theorem C3_unparsable_submission_partial_credit (rubric : ScoringRubric)
    (ground_truth : Option GroundTruth) (e : PyErr)
    (created_files : List String) (agent_output : AgentOutput)
    (workdir : List WorkFile) :
    score_correctness ground_truth (.found (.error e)) created_files = 1/5
    ∧ run_scoring rubric ground_truth (.found (.error e)) created_files
        agent_output workdir
      = .ok ⟨(1/5) * rubric.correctness_weight
          + score_methodology agent_output created_files
            * rubric.methodology_weight
          + score_code_quality workdir created_files
            * rubric.code_quality_weight
          + score_completeness created_files * rubric.completeness_weight,
        ⟨1/5, score_methodology agent_output created_files,
          score_code_quality workdir created_files,
          score_completeness created_files⟩, none⟩ := by
  have hc := score_correctness_unparsable ground_truth e created_files
  exact ⟨hc, by simp only [run_scoring, score_agent_results, hc]⟩

end DS

namespace DS

/-- Helper: the per-field numeric comparison only ever raises
`ZeroDivisionError`. -/
theorem numeric_credit_error_is_zero_div (a t : ℚ) (e : PyErr)
    (h : numeric_credit a t = .error e) : e = .zeroDivisionError := by
  by_cases ht : t = 0
  · simp [numeric_credit, ht] at h
    exact h.symm
  · simp only [numeric_credit, if_neg ht] at h
    split_ifs at h

/-- Helper: the loop over the numeric keys raises `ZeroDivisionError` as soon
as some key pair is present in both dicts with ground-truth value `0`
(whatever earlier fields contributed). -/
theorem numeric_fold_zero_ground_truth
    (agent_results ground_truth : List (String × ℚ)) :
    ∀ (keys : List (String × String)) (s : ℚ) (t : ℕ),
    (∃ p ∈ keys, (agent_results.lookup p.1).isSome
      ∧ ground_truth.lookup p.2 = some 0) →
    numeric_fold agent_results ground_truth keys s t
      = .error .zeroDivisionError := by
  intro keys
  induction keys with
  | nil => rintro s t ⟨p, hp, -⟩; exact absurd hp (List.not_mem_nil p)
  | cons head rest ih =>
    rintro s t ⟨p, hp, h1, h2⟩
    obtain ⟨ak, gk⟩ := head
    rcases List.mem_cons.1 hp with hhead | hrest
    · subst hhead
      obtain ⟨av, hav⟩ := Option.isSome_iff_exists.1 h1
      simp [numeric_fold, hav, h2, numeric_credit]
    · rcases hla : agent_results.lookup ak with _ | av
      · simpa only [numeric_fold, hla] using ih s t ⟨p, hrest, h1, h2⟩
      · rcases hlg : ground_truth.lookup gk with _ | gv
        · simpa only [numeric_fold, hla, hlg] using ih s t ⟨p, hrest, h1, h2⟩
        · rcases hcr : numeric_credit av gv with e | credit
          · rw [numeric_credit_error_is_zero_div av gv e hcr] at hcr
            simp only [numeric_fold, hla, hlg, hcr]
          · simp only [numeric_fold, hla, hlg, hcr]
            exact ih (s + credit) (t + 1) ⟨p, hrest, h1, h2⟩

/-- C10: when some numeric field is present in both the parsed submission
and the ground truth with ground-truth value `0`, the comparison divides by
that zero and raises `ZeroDivisionError`; `_score_correctness` catches it in
its fallback handler and returns the fixed `0.2` partial credit without
comparing the remaining fields or checking key presence. -/
theorem C10_zero_ground_truth_divides (ar : AgentResults) (gt : GroundTruth)
    (created_files : List String)
    (h : ∃ p ∈ numerical_keys, (ar.nums.lookup p.1).isSome
      ∧ gt.nums.lookup p.2 = some 0) :
    compare_results_to_ground_truth ar.nums gt.nums ar.strs gt.strs
      = .error .zeroDivisionError
    ∧ score_correctness (some gt) (.found (.ok ar)) created_files = 1/5 := by
  have hc : compare_results_to_ground_truth ar.nums gt.nums ar.strs gt.strs
      = .error .zeroDivisionError := by
    rw [compare_results_to_ground_truth,
      numeric_fold_zero_ground_truth ar.nums gt.nums numerical_keys 0 0 h]
  have hb : correctness_body (some gt) ar = .error .zeroDivisionError := by
    simp [correctness_body, hc]
  refine ⟨hc, ?_⟩
  simp only [score_correctness, Except.bind, hb]
  norm_num

end DS

namespace DS

/-- C10 witness: a submission whose `total_revenue` is `50` against a ground
truth whose `total_revenue` is `0`. -/
theorem C10_zero_ground_truth_divides_witness :
    (∃ p ∈ numerical_keys,
      ((⟨[("total_revenue", 50)], [], []⟩ : AgentResults).nums.lookup p.1).isSome
      ∧ (⟨[("total_revenue", 0)], []⟩ : GroundTruth).nums.lookup p.2 = some 0)
    ∧ (compare_results_to_ground_truth
        (⟨[("total_revenue", 50)], [], []⟩ : AgentResults).nums
        (⟨[("total_revenue", 0)], []⟩ : GroundTruth).nums
        (⟨[("total_revenue", 50)], [], []⟩ : AgentResults).strs
        (⟨[("total_revenue", 0)], []⟩ : GroundTruth).strs
        = .error .zeroDivisionError
      ∧ score_correctness (some ⟨[("total_revenue", 0)], []⟩)
          (.found (.ok ⟨[("total_revenue", 50)], [], []⟩)) [] = 1/5) := by
  have hp : ∃ p ∈ numerical_keys,
      ((⟨[("total_revenue", 50)], [], []⟩ : AgentResults).nums.lookup p.1).isSome
      ∧ (⟨[("total_revenue", 0)], []⟩ : GroundTruth).nums.lookup p.2 = some 0 :=
    ⟨("total_revenue", "total_revenue"), by simp [numerical_keys],
      by simp [List.lookup], by simp [List.lookup]⟩
  exact ⟨hp, C10_zero_ground_truth_divides ⟨[("total_revenue", 50)], [], []⟩
    ⟨[("total_revenue", 0)], []⟩ [] hp⟩

/-- A model-call oracle for the C4 counterexample: the first turn requests
one `execute_sql` tool call, the second turn finishes with no tool calls. -/
def c4_call_claude : ℕ → List Message → Except PyErr Response := fun i _ =>
  if i = 0 then .ok ⟨"querying", [⟨"toolu_1", "execute_sql", [("query", "SELECT 1")]⟩]⟩
  else .ok ⟨"done", []⟩

/-- A tool oracle for the C4 counterexample: every dispatched tool coroutine
raises. -/
def c4_exec_tool : ℕ → ToolCall → Except PyErr ToolResult := fun _ _ =>
  .error (.other "boom")

/-- C4 counterexample: with the tool raising on iteration 0, the loop does
not terminate with `success = false`; the per-call handler inside
`_execute_tool_calls` turns the exception into a `"Tool execution error"`
tool-result string, the loop continues, and the run ends successfully after
the second iteration with no `error` recorded. -/
theorem C4_counterexample_tool_error_continues :
    conversation_loop c4_call_claude c4_exec_tool 2 [Message.user "Problem"]
      = .ok ⟨true,
        [Message.user "Problem", Message.assistant "querying",
          Message.tool_results [("toolu_1", "Tool execution error: boom")],
          Message.assistant "done"],
        2, some (Message.assistant "done"), none⟩ := by
  decide

/-- C4 amended: an exception from the model-request step is caught at the
iteration boundary and ends the loop at once — `success = false`, the error
recorded, the transcript returned as it stood, one iteration counted, and no
retry; an exception from an individual tool execution, by contrast, never
escapes `_execute_tool_calls`, which always returns one result string per
tool call. -/
theorem C4_model_error_stops_loop
    (call_claude : ℕ → List Message → Except PyErr Response)
    (exec_tool : ℕ → ToolCall → Except PyErr ToolResult)
    (max_iterations : ℕ) (messages : List Message) (e : PyErr)
    (hn : max_iterations ≠ 0)
    (h : call_claude 0 messages = .error e) :
    conversation_loop call_claude exec_tool max_iterations messages
      = .ok ⟨false, messages, 1, none, some (pyErrMsg e)⟩
    ∧ ∀ (exec : ToolCall → Except PyErr ToolResult)
        (tool_calls : List ToolCall),
      (execute_tool_calls exec tool_calls).length = tool_calls.length := by
  constructor
  · obtain ⟨m, rfl⟩ : ∃ m, max_iterations = m + 1 :=
      ⟨max_iterations - 1, (Nat.succ_pred_eq_of_pos (Nat.pos_of_ne_zero hn)).symm⟩
    simp [conversation_loop, loop_go, h]
  · intro exec tool_calls
    simp [execute_tool_calls]

/-- C4 witness: a model call that raises immediately on a one-iteration
budget. -/
theorem C4_model_error_stops_loop_witness :
    (1 ≠ 0)
    ∧ ((fun _ _ => .error (.other "api down")
          : ℕ → List Message → Except PyErr Response) 0 [Message.user "p"]
        = .error (.other "api down"))
    ∧ (conversation_loop (fun _ _ => .error (.other "api down"))
          (fun _ _ => .ok ⟨none, none⟩) 1 [Message.user "p"]
        = .ok ⟨false, [Message.user "p"], 1, none,
            some (pyErrMsg (.other "api down"))⟩
      ∧ ∀ (exec : ToolCall → Except PyErr ToolResult)
          (tool_calls : List ToolCall),
        (execute_tool_calls exec tool_calls).length = tool_calls.length) :=
  ⟨one_ne_zero, rfl,
    C4_model_error_stops_loop (fun _ _ => .error (.other "api down"))
      (fun _ _ => .ok ⟨none, none⟩) 1 [Message.user "p"] (.other "api down")
      one_ne_zero rfl⟩

end DS

namespace DS

/-- Reductions of the `Except` monad used to unfold the embedded `try` bodies. -/
@[simp] theorem ok_bind {ε α β : Type} (a : α) (f : α → Except ε β) :
    (Except.ok a >>= f) = f a := rfl

@[simp] theorem error_bind {ε α β : Type} (e : ε) (f : α → Except ε β) :
    ((Except.error e : Except ε α) >>= f) = Except.error e := rfl

@[simp] theorem map_ok {ε α β : Type} (f : α → β) (a : α) :
    (f <$> (Except.ok a : Except ε α)) = Except.ok (f a) := rfl

@[simp] theorem map_error {ε α β : Type} (f : α → β) (e : ε) :
    (f <$> (Except.error e : Except ε α)) = Except.error e := rfl

@[simp] theorem pure_eq_ok {ε α : Type} (a : α) :
    (pure a : Except ε α) = Except.ok a := rfl

/-- C8: `evaluate_agent` is a total function of the observed step outcomes —
it always returns an `EvaluationResult` — and whenever the problem is not
configured, or any step inside its `try` block raises (database setup, or
scoring while the run succeeded), the returned result has `success = false`,
`score = 0`, and a populated `error_message`. -/
theorem C8_evaluate_agent_absorbs_exceptions (problem_id : String)
    (configured : Bool) (db_setup : Except PyErr Unit)
    (run_result : RunOutcome) (score_result : Except PyErr ScoreResult)
    (created_files : List String) (execution_time : ℚ)
    (h : configured = false
      ∨ (∃ e, db_setup = .error e)
      ∨ (run_result.success = true ∧ ∃ e, score_result = .error e)) :
    (evaluate_agent problem_id configured db_setup run_result score_result
      created_files execution_time).success = false
    ∧ (evaluate_agent problem_id configured db_setup run_result score_result
      created_files execution_time).score = 0
    ∧ (evaluate_agent problem_id configured db_setup run_result score_result
      created_files execution_time).error_message.isSome := by
  cases configured with
  | false => refine ⟨?_, ?_, ?_⟩ <;> simp [evaluate_agent]
  | true =>
    rcases db_setup with e | u
    · refine ⟨?_, ?_, ?_⟩ <;> simp [evaluate_agent]
    · rcases h with hfalse | ⟨e, hdb⟩ | ⟨hrun, e, hscore⟩
      · exact absurd hfalse (by simp)
      · exact absurd hdb (by simp)
      · subst hscore
        refine ⟨?_, ?_, ?_⟩ <;> simp [evaluate_agent, hrun]

/-- C8 witness: a configured problem whose run succeeded but whose scoring
step raised (as the scoring pipeline does via its broken handler). -/
theorem C8_evaluate_agent_absorbs_exceptions_witness :
    (true = false
      ∨ (∃ e, (Except.ok () : Except PyErr Unit) = .error e)
      ∨ ((⟨true, some "out", none⟩ : RunOutcome).success = true
        ∧ ∃ e, (Except.error .typeError : Except PyErr ScoreResult) = .error e))
    ∧ ((evaluate_agent "customer_analysis" true (.ok ()) ⟨true, some "out", none⟩
        (.error .typeError) [] 0).success = false
      ∧ (evaluate_agent "customer_analysis" true (.ok ()) ⟨true, some "out", none⟩
        (.error .typeError) [] 0).score = 0
      ∧ (evaluate_agent "customer_analysis" true (.ok ()) ⟨true, some "out", none⟩
        (.error .typeError) [] 0).error_message.isSome) :=
  ⟨Or.inr (Or.inr ⟨rfl, .typeError, rfl⟩),
    C8_evaluate_agent_absorbs_exceptions "customer_analysis" true (.ok ())
      ⟨true, some "out", none⟩ (.error .typeError) [] 0
      (Or.inr (Or.inr ⟨rfl, .typeError, rfl⟩))⟩

end DS

namespace DS

/-- C7: for a non-empty result list the summary's `success_rate` is the
fraction of successful results, `average_score` is the mean score over
successful results only (`0` when none succeeded), and the four distribution
buckets count the successful results with score `≥ 0.9`, `[0.7, 0.9)`,
`[0.5, 0.7)` and `< 0.5` respectively. -/
theorem C7_summary_statistics (results : List EvaluationResult)
    (h : results ≠ []) :
    ∃ s, get_evaluation_summary results = some s
      ∧ s.total_evaluations = results.length
      ∧ s.successful_evaluations = results.countP (fun r => r.success)
      ∧ s.success_rate
        = (results.countP (fun r => r.success) : ℚ) / (results.length : ℚ)
      ∧ s.average_score * (results.countP (fun r => r.success) : ℚ)
        = ((results.filter (fun r => r.success)).map (fun r => r.score)).sum
      ∧ (results.countP (fun r => r.success) = 0 → s.average_score = 0)
      ∧ s.excellent
        = results.countP (fun r => r.success && decide ((9:ℚ)/10 ≤ r.score))
      ∧ s.good = results.countP (fun r => r.success
          && (decide ((7:ℚ)/10 ≤ r.score) && decide (r.score < 9/10)))
      ∧ s.satisfactory = results.countP (fun r => r.success
          && (decide ((1:ℚ)/2 ≤ r.score) && decide (r.score < 7/10)))
      ∧ s.poor
        = results.countP (fun r => r.success && decide (r.score < (1:ℚ)/2)) := by
  have hne : results.isEmpty = false := by
    cases results with
    | nil => exact absurd rfl h
    | cons a l => rfl
  have hcount : ∀ q : EvaluationResult → Bool,
      ((results.filter (fun r => r.success)).filter q).length
        = results.countP (fun r => r.success && q r) := by
    intro q
    rw [List.filter_filter, List.countP_eq_length_filter]
    have hfun : (fun (a : EvaluationResult) => q a && a.success)
        = (fun a => a.success && q a) := funext fun a => Bool.and_comm (q a) a.success
    rw [hfun]
  have hlen : (results.filter (fun r => r.success)).length
      = results.countP (fun r => r.success) := by
    rw [List.countP_eq_length_filter]
  refine ⟨_, by rw [get_evaluation_summary, if_neg (by simp [hne])], rfl, hlen, ?_,
    ?_, ?_, ?_, ?_, ?_, ?_⟩
  · rw [hlen]
  · by_cases hs : (results.filter (fun r => r.success)).isEmpty
    · have : results.filter (fun r => r.success) = [] := by
        simpa [List.isEmpty_iff] using hs
      simp [hs, this, List.countP_eq_length_filter]
    · have hpos : 0 < (results.filter (fun r => r.success)).length := by
        cases hfl : results.filter (fun r => r.success) with
        | nil => rw [hfl] at hs; exact absurd rfl hs
        | cons a l => simp
      have hnz : ((results.filter (fun r => r.success)).length : ℚ) ≠ 0 := by
        exact_mod_cast Nat.pos_iff_ne_zero.1 hpos
      rw [← hlen]
      simp only [hs, Bool.false_eq_true, if_false]
      rw [div_mul_cancel₀ _ hnz]
  · intro hzero
    have : (results.filter (fun r => r.success)).length = 0 := by
      rw [hlen]; exact hzero
    have hempty : results.filter (fun r => r.success) = [] :=
      List.length_eq_zero.1 this
    simp [hempty]
  · exact hcount _
  · exact hcount _
  · exact hcount _
  · exact hcount _

/-- Demonstration input for the suite-summary claim: scores `1.0`, `0.8`,
and one failed evaluation. -/
def demo_results : List EvaluationResult :=
  [⟨"customer_analysis", true, 1, some ⟨1, 1, 1, 1⟩, 3, none, some "ok", some []⟩,
   ⟨"customer_analysis", true, 4/5, some ⟨1, 1, 0, 0⟩, 2, none, some "ok", some []⟩,
   ⟨"customer_analysis", false, 0, none, 1, some "agent crashed", none, none⟩]

/-- C7 witness: the demonstration list is non-empty and the general summary
characterisation applies to it. -/
theorem C7_summary_statistics_witness :
    demo_results ≠ []
    ∧ ∃ s, get_evaluation_summary demo_results = some s
      ∧ s.total_evaluations = demo_results.length
      ∧ s.successful_evaluations = demo_results.countP (fun r => r.success)
      ∧ s.success_rate
        = (demo_results.countP (fun r => r.success) : ℚ)
          / (demo_results.length : ℚ)
      ∧ s.average_score * (demo_results.countP (fun r => r.success) : ℚ)
        = ((demo_results.filter (fun r => r.success)).map
            (fun r => r.score)).sum
      ∧ (demo_results.countP (fun r => r.success) = 0 → s.average_score = 0)
      ∧ s.excellent
        = demo_results.countP (fun r => r.success && decide ((9:ℚ)/10 ≤ r.score))
      ∧ s.good = demo_results.countP (fun r => r.success
          && (decide ((7:ℚ)/10 ≤ r.score) && decide (r.score < 9/10)))
      ∧ s.satisfactory = demo_results.countP (fun r => r.success
          && (decide ((1:ℚ)/2 ≤ r.score) && decide (r.score < 7/10)))
      ∧ s.poor = demo_results.countP
          (fun r => r.success && decide (r.score < (1:ℚ)/2)) :=
  ⟨by simp [demo_results], C7_summary_statistics demo_results (by simp [demo_results])⟩

/-- The concrete numbers behind the claim's example: success rate `2/3`,
mean score `0.9` over the two successes, one excellent and one good result,
none poor. -/
theorem get_evaluation_summary_demo :
    get_evaluation_summary demo_results
      = some ⟨3, 2, 2/3, 9/10, 2, 1, 1, 0, 0⟩ := by
  rw [get_evaluation_summary]
  norm_num [demo_results, List.filter, List.countP, List.countP.go]

end DS

namespace DS

/-- Helper: every key of an association list looks up to some value. -/
theorem lookup_isSome_of_mem_keys (w : List (String × ℚ)) (k : String)
    (h : k ∈ w.map Prod.fst) : ∃ v, w.lookup k = some v := by
  induction w with
  | nil => simp at h
  | cons p rest ih =>
    obtain ⟨k0, v0⟩ := p
    by_cases hk : k = k0
    · exact ⟨v0, by simp [List.lookup, hk]⟩
    · simp only [List.map_cons, List.mem_cons] at h
      rcases h with heq | hmem
      · exact absurd heq hk
      · obtain ⟨v, hv⟩ := ih hmem
        refine ⟨v, ?_⟩
        simpa [List.lookup, beq_eq_false_iff_ne.mpr hk] using hv

/-- Helper: a successful lookup returns an entry of the list. -/
theorem lookup_mem (w : List (String × ℚ)) (k : String) (v : ℚ)
    (h : w.lookup k = some v) : (k, v) ∈ w := by
  induction w with
  | nil => simp [List.lookup] at h
  | cons p rest ih =>
    obtain ⟨k0, v0⟩ := p
    by_cases hk : k = k0
    · subst hk
      simp [List.lookup] at h
      simp [← h]
    · simp only [List.lookup, beq_eq_false_iff_ne.mpr hk] at h
      exact List.mem_cons_of_mem _ (ih h)

/-- Helper: when every subscore key is a weight key, the weighted-sum loop
of `Grade.score` succeeds and computes the expected sum. -/
theorem grade_sum_ok (s w : List (String × ℚ))
    (h : ∀ p ∈ s, ∃ v, w.lookup p.1 = some v) :
    ∀ acc, grade_sum s w acc
      = .ok (acc + (s.map (fun p => p.2 * ((w.lookup p.1).getD 0))).sum) := by
  induction s with
  | nil => intro acc; simp [grade_sum]
  | cons p rest ih =>
    intro acc
    obtain ⟨k0, v0⟩ := p
    obtain ⟨v, hv⟩ := h (k0, v0) (List.mem_cons_self _ _)
    simp only [grade_sum, hv]
    rw [ih (fun q hq => h q (List.mem_cons_of_mem _ hq)) (acc + v0 * v)]
    simp [hv]
    ring

/-- Helper: summing the looked-up value over the keys of a dict with
distinct keys gives the sum of the dict's values. -/
theorem sum_lookup_keys (w : List (String × ℚ))
    (hnd : (w.map Prod.fst).Nodup) :
    ((w.map Prod.fst).map (fun k => (w.lookup k).getD 0)).sum
      = (w.map Prod.snd).sum := by
  induction w with
  | nil => simp
  | cons p rest ih =>
    obtain ⟨k0, v0⟩ := p
    obtain ⟨hk0, hrest⟩ : k0 ∉ rest.map Prod.fst ∧ (rest.map Prod.fst).Nodup := by
      simpa using hnd
    have hhead : (List.lookup k0 ((k0, v0) :: rest)).getD 0 = v0 := by
      simp [List.lookup]
    have htail : (rest.map Prod.fst).map
        (fun k => (List.lookup k ((k0, v0) :: rest)).getD 0)
        = (rest.map Prod.fst).map (fun k => (List.lookup k rest).getD 0) := by
      apply List.map_congr_left
      intro k hk
      have hne : k ≠ k0 := fun heq => hk0 (heq ▸ hk)
      simp [List.lookup, beq_eq_false_iff_ne.mpr hne]
    rw [List.map_cons, List.map_cons, List.map_cons, List.sum_cons,
      List.sum_cons, hhead, htail, ih hrest]

end DS

namespace DS

/-- C6 amended: for a `Grade` whose dicts have equal key sets, subscores all
in `[0, 1]`, and nonnegative weights summing to `1`, the `score` property
passes every assertion and returns exactly the weighted sum
`Σ subscore_i * weight_i`, which lies in `[0, 1]`.  (The key-distinctness
hypotheses state that the association lists model Python dicts.) -/
theorem C6_grade_score_weighted_sum (g : Grade)
    (hnds : (g.subscores.map Prod.fst).Nodup)
    (hndw : (g.weights.map Prod.fst).Nodup)
    (hkeq : keys_equal g.subscores g.weights = true)
    (hs : ∀ p ∈ g.subscores, 0 ≤ p.2 ∧ p.2 ≤ 1)
    (hw1 : (g.weights.map Prod.snd).sum = 1)
    (hw0 : ∀ p ∈ g.weights, 0 ≤ p.2) :
    ∃ sc, Grade.score g = .ok sc
      ∧ sc = (g.subscores.map
          (fun p => p.2 * ((g.weights.lookup p.1).getD 0))).sum
      ∧ 0 ≤ sc ∧ sc ≤ 1 := by
  obtain ⟨S, W⟩ := g
  simp only at hnds hndw hkeq hs hw1 hw0 ⊢
  have hmem : ∀ k, k ∈ S.map Prod.fst ↔ k ∈ W.map Prod.fst := by
    have hk2 := hkeq
    simp only [keys_equal, Bool.and_eq_true, List.all_eq_true,
      decide_eq_true_eq] at hk2
    exact fun k => ⟨fun hk => hk2.1 k hk, fun hk => hk2.2 k hk⟩
  have hlook : ∀ p ∈ S, ∃ v, W.lookup p.1 = some v := fun p hp =>
    lookup_isSome_of_mem_keys W p.1
      ((hmem p.1).1 (List.mem_map_of_mem Prod.fst hp))
  have h0 : 0 ≤ (S.map (fun p => p.2 * ((W.lookup p.1).getD 0))).sum := by
    apply List.sum_nonneg
    intro x hx
    obtain ⟨p, hp, rfl⟩ := List.mem_map.1 hx
    rcases hw : W.lookup p.1 with _ | v
    · simp [hw]
    · have hv0 : 0 ≤ v := hw0 (p.1, v) (lookup_mem W p.1 v hw)
      simpa [hw] using mul_nonneg (hs p hp).1 hv0
  have h1 : (S.map (fun p => p.2 * ((W.lookup p.1).getD 0))).sum ≤ 1 := by
    have hle : (S.map (fun p => p.2 * ((W.lookup p.1).getD 0))).sum
        ≤ (S.map (fun p => (W.lookup p.1).getD 0)).sum := by
      apply List.sum_le_sum
      intro p hp
      rcases hw : W.lookup p.1 with _ | v
      · simp [hw]
      · have hv0 : 0 ≤ v := hw0 (p.1, v) (lookup_mem W p.1 v hw)
        simpa [hw] using mul_le_of_le_one_left hv0 (hs p hp).2
    have hperm : (S.map Prod.fst).Perm (W.map Prod.fst) :=
      (List.perm_ext_iff_of_nodup hnds hndw).mpr hmem
    have hmapmap : (S.map (fun p => (W.lookup p.1).getD 0)).sum
        = ((S.map Prod.fst).map (fun k => (W.lookup k).getD 0)).sum := by
      rw [List.map_map]
      rfl
    have hsum : ((S.map Prod.fst).map (fun k => (W.lookup k).getD 0)).sum
        = ((W.map Prod.fst).map (fun k => (W.lookup k).getD 0)).sum :=
      (hperm.map _).sum_eq
    calc (S.map (fun p => p.2 * ((W.lookup p.1).getD 0))).sum
        ≤ (S.map (fun p => (W.lookup p.1).getD 0)).sum := hle
      _ = 1 := by rw [hmapmap, hsum, sum_lookup_keys W hndw, hw1]
  have hSne : S ≠ [] := by
    rintro rfl
    have hWkeys : W.map Prod.fst = [] := by
      cases hW : W.map Prod.fst with
      | nil => rfl
      | cons k ks =>
        have : k ∈ ([] : List (String × ℚ)).map Prod.fst :=
          (hmem k).2 (hW ▸ List.mem_cons_self k ks)
        simp at this
    have : W = [] := List.map_eq_nil_iff.1 hWkeys
    subst this
    simp at hw1
  obtain ⟨p0, rest, rfl⟩ : ∃ p0 rest, S = p0 :: rest := by
    cases S with
    | nil => exact absurd rfl hSne
    | cons p0 rest => exact ⟨p0, rest, rfl⟩
  have hclose : np_isclose_one ((W.map Prod.snd).sum) = true := by
    rw [hw1]
    simp only [np_isclose_one]
    norm_num
  have hall0 : ((p0 :: rest).map Prod.snd).all (fun v => decide (0 ≤ v)) = true := by
    simp only [List.all_eq_true, decide_eq_true_eq]
    intro v hv
    obtain ⟨p, hp, rfl⟩ := List.mem_map.1 hv
    exact (hs p hp).1
  have hall1 : ((p0 :: rest).map Prod.snd).all (fun v => decide (v ≤ 1)) = true := by
    simp only [List.all_eq_true, decide_eq_true_eq]
    intro v hv
    obtain ⟨p, hp, rfl⟩ := List.mem_map.1 hv
    exact (hs p hp).2
  refine ⟨_, ?_, rfl, h0, h1⟩
  rw [Grade.score]
  simp only
  rw [if_pos hkeq, if_pos hclose, if_pos hall0, if_pos hall1,
    grade_sum_ok (p0 :: rest) W hlook 0]
  rw [zero_add]
  exact if_pos ⟨h0, h1⟩

end DS

namespace DS

/-- C6 counterexample: a `Grade` satisfying every hypothesis of the original
claim — equal key sets, subscores in `[0, 1]`, weights summing to `1` — but
with a negative weight: the weighted sum is `2`, the final range assertion
fails, and `score` raises `AssertionError` instead of returning a value in
`[0, 1]`. -/
theorem C6_counterexample_negative_weight :
    keys_equal [("a", (1:ℚ)), ("b", 0)] [("a", (2:ℚ)), ("b", -1)] = true
    ∧ (∀ p ∈ [(("a" : String), (1:ℚ)), ("b", 0)], 0 ≤ p.2 ∧ p.2 ≤ 1)
    ∧ ([(("a" : String), (2:ℚ)), ("b", -1)].map Prod.snd).sum = 1
    ∧ Grade.score ⟨[("a", 1), ("b", 0)], [("a", 2), ("b", -1)]⟩
      = .error .assertionError := by
  have hkeq : keys_equal [("a", (1:ℚ)), ("b", 0)] [("a", (2:ℚ)), ("b", -1)]
      = true := by decide
  have hsum1 : ([(("a" : String), (2:ℚ)), ("b", -1)].map Prod.snd).sum = 1 := by
    norm_num [List.map_cons, List.sum_cons, List.sum_nil]
  refine ⟨hkeq, ?_, hsum1, ?_⟩
  · intro p hp
    rcases List.mem_cons.1 hp with rfl | hp
    · norm_num
    · rcases List.mem_cons.1 hp with rfl | hp
      · norm_num
      · simp at hp
  · have hclose : np_isclose_one
        (([(("a" : String), (2:ℚ)), ("b", -1)].map Prod.snd).sum) = true := by
      rw [hsum1]
      simp only [np_isclose_one]
      norm_num
    have hall0 : (([(("a" : String), (1:ℚ)), ("b", 0)].map Prod.snd).all
        (fun v => decide (0 ≤ v))) = true := by
      simp only [List.map_cons, List.map_nil, List.all_cons, List.all_nil,
        Bool.and_eq_true, decide_eq_true_eq]
      norm_num
    have hall1 : (([(("a" : String), (1:ℚ)), ("b", 0)].map Prod.snd).all
        (fun v => decide (v ≤ 1))) = true := by
      simp only [List.map_cons, List.map_nil, List.all_cons, List.all_nil,
        Bool.and_eq_true, decide_eq_true_eq]
      norm_num
    have hgs : grade_sum [("a", (1:ℚ)), ("b", 0)] [("a", (2:ℚ)), ("b", -1)] 0
        = .ok 2 := by
      simp only [grade_sum, List.lookup, String.reduceBEq]
      norm_num
    rw [Grade.score]
    simp only
    rw [if_pos hkeq, if_pos hclose, if_pos hall0, if_pos hall1, hgs]
    exact if_neg (by norm_num : ¬((0:ℚ) ≤ 2 ∧ (2:ℚ) ≤ 1))

/-- C6 witness: a two-field grade with subscores `1/2` and `1` under weights
`2/5` and `3/5`. -/
theorem C6_grade_score_weighted_sum_witness :
    (([(("a" : String), (1:ℚ)/2), ("b", 1)].map Prod.fst).Nodup
      ∧ ([(("a" : String), (2:ℚ)/5), ("b", 3/5)].map Prod.fst).Nodup
      ∧ keys_equal [("a", (1:ℚ)/2), ("b", 1)] [("a", (2:ℚ)/5), ("b", 3/5)] = true
      ∧ (∀ p ∈ [(("a" : String), (1:ℚ)/2), ("b", 1)], 0 ≤ p.2 ∧ p.2 ≤ 1)
      ∧ ([(("a" : String), (2:ℚ)/5), ("b", 3/5)].map Prod.snd).sum = 1
      ∧ (∀ p ∈ [(("a" : String), (2:ℚ)/5), ("b", 3/5)], 0 ≤ p.2))
    ∧ (∃ sc, Grade.score ⟨[("a", 1/2), ("b", 1)], [("a", 2/5), ("b", 3/5)]⟩
        = .ok sc
      ∧ sc = ([(("a" : String), (1:ℚ)/2), ("b", 1)].map
          (fun p => p.2 * (([(("a" : String), (2:ℚ)/5), ("b", 3/5)].lookup
            p.1).getD 0))).sum
      ∧ 0 ≤ sc ∧ sc ≤ 1) := by
  have hnds : ([(("a" : String), (1:ℚ)/2), ("b", 1)].map Prod.fst).Nodup := by
    decide
  have hndw : ([(("a" : String), (2:ℚ)/5), ("b", 3/5)].map Prod.fst).Nodup := by
    decide
  have hkeq : keys_equal [("a", (1:ℚ)/2), ("b", 1)]
      [("a", (2:ℚ)/5), ("b", 3/5)] = true := by decide
  have hs : ∀ p ∈ [(("a" : String), (1:ℚ)/2), ("b", 1)], 0 ≤ p.2 ∧ p.2 ≤ 1 := by
    intro p hp
    rcases List.mem_cons.1 hp with rfl | hp
    · norm_num
    · rcases List.mem_cons.1 hp with rfl | hp
      · norm_num
      · simp at hp
  have hw1 : ([(("a" : String), (2:ℚ)/5), ("b", 3/5)].map Prod.snd).sum = 1 := by
    norm_num [List.map_cons, List.sum_cons, List.sum_nil]
  have hw0 : ∀ p ∈ [(("a" : String), (2:ℚ)/5), ("b", 3/5)], 0 ≤ p.2 := by
    intro p hp
    rcases List.mem_cons.1 hp with rfl | hp
    · norm_num
    · rcases List.mem_cons.1 hp with rfl | hp
      · norm_num
      · simp at hp
  exact ⟨⟨hnds, hndw, hkeq, hs, hw1, hw0⟩,
    C6_grade_score_weighted_sum ⟨[("a", 1/2), ("b", 1)], [("a", 2/5), ("b", 3/5)]⟩
      hnds hndw hkeq hs hw1 hw0⟩

end DS
